import Mathlib

/-!
Verification development for the video-cleaner repository.

This file gives a shallow embedding of the parts of the program that the
verified properties are about, translated from the Python sources:

* `src/recovery_manager.py` : the `RecoveryManager` state store
  (session bookkeeping, per-file state machine, statistics counters,
  crash-safe persistence protocol of `_save_state`).
* `src/size_checker.py` : `VideoSizeChecker._calculate_expected_size`,
  `_evaluate_size_ratio` and `_check_episode_consistency`.
* `src/analyzer.py` : `VideoAnalyzer._determine_processing_actions` and the
  two caching layers of `analyze_file` / `_cached_ffprobe_analysis`.
* `src/processor.py` : `VideoProcessor._execute_ffmpeg_processing` together
  with `ProcessingContext._cleanup_temp_files`.
* `src/video_cleaner.py` : the session prelude of
  `VideoCleanerApp.run_processing`.

Python floats are modelled as `Rat`, machine integers as `Int`/`Nat`,
wall-clock timestamps as abstract `Nat` ticks, and external subprocess calls
as explicit environment parameters.  Logging, f-string message formatting and
the config-manager plumbing carry no information used by any property and are
collapsed to the values they would carry (noted per definition).
-/

namespace VideoCleaner

/-! ## Recovery manager (`src/recovery_manager.py`)

`FileState` mirrors the `FileState` enum (lines 23-31).  Timestamps
(`datetime.now()`) are modelled as an explicit `now : Nat` argument threaded
into every mutating call.  The JSON file side effects of `_save_state` are
modelled separately (see `saveStateTrace`); the in-memory store below is
exactly the `self.state` dictionary.
-/

inductive FileState where
  | pending
  | inProgress
  | completed
  | failed
  | corrupted
  | skipped
  | rbMarked
deriving DecidableEq, Repr

/-- One entry of `state['file_states']` (lines 131-141 of
`recovery_manager.py`). -/
structure FileInfo where
  state : FileState
  addedTime : Nat
  lastUpdate : Nat
  attempts : Nat
  errorMessage : Option String
  processingTime : Rat
  originalSize : Option Int
  processedSize : Option Int
  spaceSaved : Int
deriving DecidableEq, Repr

/-- The `state['statistics']` dictionary (lines 73-83).  Counters are `Int`
because the Python code decrements without a lower bound. -/
structure Statistics where
  filesPending : Int
  filesInProgress : Int
  filesCompleted : Int
  filesFailed : Int
  filesCorrupted : Int
  filesSkipped : Int
  filesRbMarked : Int
  totalSpaceSaved : Int
  totalProcessingTime : Rat
deriving DecidableEq, Repr

/-- The `state['session_info']` dictionary (lines 62-71). -/
structure SessionInfo where
  sessionId : Option String
  startTime : Option Nat
  lastUpdate : Option Nat
  processingMode : Option String
  directoryPath : Option String
  totalFilesFound : Nat
  sessionCompleted : Bool
  interrupted : Bool
deriving DecidableEq, Repr

/-- The whole `self.state` dictionary of `RecoveryManager`.  `fileStates` is
an association list with Python dict semantics: updating an existing key
keeps its position, a new key is appended at the end.  The `config_snapshot`
entry only echoes configuration and is omitted. -/
structure RecoveryState where
  sessionInfo : SessionInfo
  fileStates : List (String × FileInfo)
  statistics : Statistics
  errorLog : List (Nat × String × String)
  recoveryCheckpoints : List (Nat × String)
deriving DecidableEq, Repr

/-- Python dict lookup on the association list. -/
def lookupFile : List (String × FileInfo) → String → Option FileInfo
  | [], _ => none
  | (k2, v) :: rest, k => if k2 = k then some v else lookupFile rest k

/-- Python dict assignment: update in place, or append a fresh key at the
end (insertion order is preserved, as in CPython). -/
def setFile : List (String × FileInfo) → String → FileInfo → List (String × FileInfo)
  | [], k, v => [(k, v)]
  | (k2, v2) :: rest, k, v =>
      if k2 = k then (k2, v) :: rest else (k2, v2) :: setFile rest k v

/-- The zeroed statistics dictionary (lines 144-154 reset it with
`files_pending = len(file_list)`). -/
def freshStatistics (pending : Int) : Statistics :=
  { filesPending := pending
    filesInProgress := 0
    filesCompleted := 0
    filesFailed := 0
    filesCorrupted := 0
    filesSkipped := 0
    filesRbMarked := 0
    totalSpaceSaved := 0
    totalProcessingTime := 0 }

/-- The per-file record created at session start and for unseen paths in
`update_file_state` (lines 131-141 and 196-206). -/
def newFileInfo (now : Nat) : FileInfo :=
  { state := .pending
    addedTime := now
    lastUpdate := now
    attempts := 0
    errorMessage := none
    processingTime := 0
    originalSize := none
    processedSize := none
    spaceSaved := 0 }

/-- The initial `self.state` built in `__init__` (lines 61-87). -/
def initialRecoveryState : RecoveryState :=
  { sessionInfo :=
      { sessionId := none
        startTime := none
        lastUpdate := none
        processingMode := none
        directoryPath := none
        totalFilesFound := 0
        sessionCompleted := false
        interrupted := false }
    fileStates := []
    statistics := freshStatistics 0
    errorLog := []
    recoveryCheckpoints := [] }

/-- `RecoveryManager.start_session` (lines 100-175).  The session id is
`mode_<timestamp>`; the timestamp `datetime.now().strftime(...)` is the
abstract clock value `now`.  Every file of `file_list` is (re)initialised to
`PENDING`; statistics are reset; error log and checkpoints are cleared.
Returns the session id together with the new store state.  The
`_save_state()` call is a disk effect modelled by `saveStateTrace`. -/
def startSession (mode dir : String) (files : List String) (now : Nat)
    (s : RecoveryState) : String × RecoveryState :=
  let sid := mode ++ "_" ++ toString now
  let fstates := files.foldl (fun m f => setFile m f (newFileInfo now)) []
  ⟨sid,
    { s with
      sessionInfo :=
        { sessionId := some sid
          startTime := some now
          lastUpdate := some now
          processingMode := some mode
          directoryPath := some dir
          totalFilesFound := files.length
          sessionCompleted := false
          interrupted := false }
      fileStates := fstates
      statistics := freshStatistics (files.length : Int)
      errorLog := []
      recoveryCheckpoints := [] }⟩

/-- Decrement branch of `RecoveryManager._update_statistics`
(lines 375-389). -/
def decStat (st : Statistics) : FileState → Statistics
  | .pending => { st with filesPending := st.filesPending - 1 }
  | .inProgress => { st with filesInProgress := st.filesInProgress - 1 }
  | .completed => { st with filesCompleted := st.filesCompleted - 1 }
  | .failed => { st with filesFailed := st.filesFailed - 1 }
  | .corrupted => { st with filesCorrupted := st.filesCorrupted - 1 }
  | .skipped => { st with filesSkipped := st.filesSkipped - 1 }
  | .rbMarked => { st with filesRbMarked := st.filesRbMarked - 1 }

/-- Increment branch of `RecoveryManager._update_statistics`
(lines 391-405). -/
def incStat (st : Statistics) : FileState → Statistics
  | .pending => { st with filesPending := st.filesPending + 1 }
  | .inProgress => { st with filesInProgress := st.filesInProgress + 1 }
  | .completed => { st with filesCompleted := st.filesCompleted + 1 }
  | .failed => { st with filesFailed := st.filesFailed + 1 }
  | .corrupted => { st with filesCorrupted := st.filesCorrupted + 1 }
  | .skipped => { st with filesSkipped := st.filesSkipped + 1 }
  | .rbMarked => { st with filesRbMarked := st.filesRbMarked + 1 }

/-- `RecoveryManager._update_statistics` (lines 371-405): decrement the
counter of the old state, increment the counter of the new one. -/
def updateStatistics (oldState newState : FileState) (st : Statistics) : Statistics :=
  incStat (decStat st oldState) newState

/-- `RecoveryManager.update_file_state` (lines 177-240).  Mirrors the Python
truthiness tests: `if error_message:` is false for `None` and for the empty
string; `if original_size and processed_size < original_size:` is false for
`None` and for `0`.  The periodic `_save_state` call is a disk effect and is
not part of the in-memory transition. -/
def updateFileState (path : String) (newState : FileState)
    (errorMessage : Option String) (processingTime : Rat)
    (originalSize processedSize : Option Int) (now : Nat)
    (s : RecoveryState) : RecoveryState :=
  let m0 :=
    match lookupFile s.fileStates path with
    | some _ => s.fileStates
    | none => setFile s.fileStates path (newFileInfo now)
  let info := (lookupFile m0 path).getD (newFileInfo now)
  let oldState := info.state
  let info1 :=
    { info with
      state := newState
      lastUpdate := now
      processingTime := info.processingTime + processingTime }
  let info2 :=
    match errorMessage with
    | some e =>
        if e = "" then info1
        else { info1 with errorMessage := some e, attempts := info1.attempts + 1 }
    | none => info1
  let info3 :=
    match originalSize with
    | some o => { info2 with originalSize := some o }
    | none => info2
  let info4 :=
    match processedSize with
    | some p =>
        let i := { info3 with processedSize := some p }
        match originalSize with
        | some o => if o ≠ 0 ∧ p < o then { i with spaceSaved := o - p } else i
        | none => i
    | none => info3
  { s with
    fileStates := setFile m0 path info4
    statistics := updateStatistics oldState newState s.statistics
    sessionInfo := { s.sessionInfo with lastUpdate := some now } }

/-- `RecoveryManager.mark_file_in_progress` (lines 242-244). -/
def markFileInProgress (path : String) (now : Nat) (s : RecoveryState) : RecoveryState :=
  updateFileState path .inProgress none 0 none none now s

/-- `RecoveryManager.mark_file_completed` (lines 246-252). -/
def markFileCompleted (path : String) (processingTime : Rat)
    (originalSize processedSize : Option Int) (now : Nat)
    (s : RecoveryState) : RecoveryState :=
  updateFileState path .completed none processingTime originalSize processedSize now s

/-- `RecoveryManager.mark_file_failed` (lines 254-266): a failed transition
plus an entry to the error log. -/
def markFileFailed (path errorMessage : String) (processingTime : Rat)
    (now : Nat) (s : RecoveryState) : RecoveryState :=
  let s1 := updateFileState path .failed (some errorMessage) processingTime none none now s
  { s1 with errorLog := s1.errorLog ++ [(now, path, errorMessage)] }

/-- `RecoveryManager.mark_file_corrupted` (lines 268-270). -/
def markFileCorrupted (path errorMessage : String) (now : Nat)
    (s : RecoveryState) : RecoveryState :=
  updateFileState path .corrupted (some errorMessage) 0 none none now s

/-- `RecoveryManager.mark_file_rb` (lines 272-274). -/
def markFileRb (path reason : String) (now : Nat) (s : RecoveryState) : RecoveryState :=
  updateFileState path .rbMarked (some reason) 0 none none now s

/-- `RecoveryManager.mark_file_skipped` (lines 276-278). -/
def markFileSkipped (path reason : String) (now : Nat) (s : RecoveryState) : RecoveryState :=
  updateFileState path .skipped (some reason) 0 none none now s

/-- `RecoveryManager.get_pending_files` (lines 280-287): the paths whose
recorded state is `PENDING`, in dict insertion order. -/
def getPendingFiles (s : RecoveryState) : List String :=
  s.fileStates.filterMap fun kv => if kv.2.state = .pending then some kv.1 else none

/-- `RecoveryManager.can_resume_session` (lines 303-316).  Matches the
Python truthiness of `session_id` (`None` or the empty string are falsy). -/
def canResumeSession (s : RecoveryState) : Bool :=
  match s.sessionInfo.sessionId with
  | none => false
  | some sid =>
      if sid = "" then false
      else if s.sessionInfo.sessionCompleted then false
      else decide (s.statistics.filesPending > 0 ∨ s.statistics.filesInProgress > 0)

/-- `RecoveryManager.complete_session` (lines 360-369). -/
def completeSession (now : Nat) (s : RecoveryState) : RecoveryState :=
  { s with
    sessionInfo :=
      { s.sessionInfo with sessionCompleted := true, lastUpdate := some now } }

/-- Sum of the seven per-state counters of `statistics`. -/
def sumStats (st : Statistics) : Int :=
  st.filesPending + st.filesInProgress + st.filesCompleted + st.filesFailed +
    st.filesCorrupted + st.filesSkipped + st.filesRbMarked

/-- One mutating recovery-store call, for quantifying over arbitrary call
sequences: `update_file_state` itself or one of its `mark_*` wrappers. -/
inductive RecoveryOp where
  | update (path : String) (st : FileState) (err : Option String) (pt : Rat)
      (osz psz : Option Int) (now : Nat)
  | inProgress (path : String) (now : Nat)
  | completedOp (path : String) (pt : Rat) (osz psz : Option Int) (now : Nat)
  | failedOp (path err : String) (pt : Rat) (now : Nat)
  | corruptedOp (path err : String) (now : Nat)
  | rbOp (path reason : String) (now : Nat)
  | skippedOp (path reason : String) (now : Nat)

/-- Interpret one `RecoveryOp` on the store. -/
def applyOp (s : RecoveryState) : RecoveryOp → RecoveryState
  | .update path st err pt osz psz now => updateFileState path st err pt osz psz now s
  | .inProgress path now => markFileInProgress path now s
  | .completedOp path pt osz psz now => markFileCompleted path pt osz psz now s
  | .failedOp path err pt now => markFileFailed path err pt now s
  | .corruptedOp path err now => markFileCorrupted path err now s
  | .rbOp path reason now => markFileRb path reason now s
  | .skippedOp path reason now => markFileSkipped path reason now s

/-- Interpret a sequence of mutating calls, in order. -/
def applyOps (ops : List RecoveryOp) (s : RecoveryState) : RecoveryState :=
  ops.foldl applyOp s

/-- The session prelude of `VideoCleanerApp.run_processing`
(`src/video_cleaner.py` lines 936-951): it first calls
`recovery_manager.start_session` over the scanned file list, then asks
`can_resume_session()` and, when that answers true, replaces the work list
by `get_pending_files()`.  Returns the session id reported to the user and
the list of files the loop will process. -/
def runProcessingPrelude (mode dir : String) (files : List String) (now : Nat)
    (s : RecoveryState) : String × List String × RecoveryState :=
  let (sid, s1) := startSession mode dir files now s
  if canResumeSession s1 then (sid, getPendingFiles s1, s1)
  else (sid, files, s1)

/-! ## Persistence protocol of `_save_state` (`src/recovery_manager.py`
lines 427-446)

The state file and its `.bak` sibling are modelled as two slots of an
abstract disk.  A slot holds either a complete, parseable JSON snapshot
(abstracted by a `Nat` identifier) or a truncated file left by an
interrupted write.  `_save_state` performs: (1) if the state file exists,
atomically rename it onto the `.bak` path (clobbering any previous backup);
(2) open the state file for writing, which creates/truncates it; (3) finish
writing the snapshot.  `saveStateTrace` lists every disk state the protocol
passes through, in order, starting from the pre-call state. -/

inductive DiskFile where
  | complete (snapshot : Nat)
  | truncated
deriving DecidableEq, Repr

/-- The two files `_save_state` touches: `state_file_path` and its `.bak`
sibling. -/
structure StateDisk where
  cur : Option DiskFile
  bak : Option DiskFile
deriving DecidableEq, Repr

/-- Every intermediate disk state of one `_save_state` call writing the
snapshot `newSnap`. -/
def saveStateTrace (newSnap : Nat) (d : StateDisk) : List StateDisk :=
  let d1 :=
    match d.cur with
    | some f => { cur := none, bak := some f : StateDisk }
    | none => d
  let d2 : StateDisk := { d1 with cur := some .truncated }
  let d3 : StateDisk := { d1 with cur := some (.complete newSnap) }
  [d, d1, d2, d3]

/-- Whether at least one of the state file and the backup is a complete,
parseable snapshot. -/
def hasCompleteSnapshot (d : StateDisk) : Bool :=
  (match d.cur with | some (.complete _) => true | _ => false) ||
  (match d.bak with | some (.complete _) => true | _ => false)

/-- Precondition under which the save protocol keeps a complete snapshot
available at every instant: the current state file is itself complete, or
it is absent while the backup is complete. -/
def saveSafePrecondition (d : StateDisk) : Bool :=
  (match d.cur with | some (.complete _) => true | _ => false) ||
  ((match d.cur with | none => true | some _ => false) &&
    (match d.bak with | some (.complete _) => true | _ => false))

/-! ## Size checker (`src/size_checker.py`)

Floats are modelled as `Rat`.  The reason strings built with f-string
percentage formatting are abstracted to tags carrying the same case
information (`SizeReason`); the numbers inside them are not used anywhere.
-/

inductive Severity where
  | normal
  | warning
  | critical
deriving DecidableEq, Repr

/-- The `recommendation` values produced by the size checker: `proceed`,
`review`, `mark_rb` and (from `_create_error_result`) `skip`. -/
inductive SizeRec where
  | proceed
  | review
  | markRb
  | skip
deriving DecidableEq, Repr

/-- Tags for the reason strings of `_evaluate_size_ratio` and
`_check_episode_consistency`. -/
inductive SizeReason where
  | withinExpected
  | overMax
  | overWarning
  | underMin
  | inconsistentWithEpisodes
deriving DecidableEq, Repr

/-- The processing mode.  The code compares `mode == "tv"` and treats every
other mode string as the movie branch in `_evaluate_size_ratio` and
`_calculate_expected_size`. -/
inductive PMode where
  | tv
  | movie
deriving DecidableEq, Repr

/-- Configuration consumed by `VideoSizeChecker` (constructor lines 44-97):
all thresholds and standards come from `master_config.json` lookups with the
defaults shown there. -/
structure SizeCheckerCfg where
  tvMaxMultiplier : Rat
  tvMinMultiplier : Rat
  tvWarningThreshold : Rat
  tvConsistencyChecking : Bool
  tvEpisodeCacheSize : Nat
  movieMaxMultiplier : Rat
  movieMinMultiplier : Rat
  movieWarningThreshold : Rat
  movieConsistencyChecking : Bool
  tvDurationMinutes : Rat
  tvMbPerMinute : Rat
  movieDurationMinutes : Rat
  movieMbPerMinute : Rat
  cachePatterns : Bool
  autoMarkRb : Bool
deriving Repr

/-- The fallback defaults of the constructor (lines 72-97); the fractional
values 2.5, 0.3, 1.5 and 0.2 are written with `mkRat`. -/
def defaultSizeCfg : SizeCheckerCfg :=
  { tvMaxMultiplier := mkRat 5 2
    tvMinMultiplier := mkRat 3 10
    tvWarningThreshold := mkRat 3 2
    tvConsistencyChecking := true
    tvEpisodeCacheSize := 10
    movieMaxMultiplier := 3
    movieMinMultiplier := mkRat 1 5
    movieWarningThreshold := 2
    movieConsistencyChecking := false
    tvDurationMinutes := 43
    tvMbPerMinute := 12
    movieDurationMinutes := 120
    movieMbPerMinute := 14
    cachePatterns := true
    autoMarkRb := true }

/-- The quality values `_analyze_filename` can produce (lines 196-216). -/
inductive Quality where
  | q480p
  | q720p
  | q1080p
  | q4k
  | unknownQ
deriving DecidableEq, Repr

/-- The codec values `_analyze_filename` can produce (lines 218-228). -/
inductive SCodec where
  | h264
  | h265
  | mpeg4
  | xvid
  | avi
  | unknownC
deriving DecidableEq, Repr

/-- `self.quality_multipliers` (lines 107-113); `.get(quality, 1.0)` over
the values `_analyze_filename` produces. -/
def qualityMultiplier : Quality → Rat
  | .q480p => mkRat 1 2
  | .q720p => 1
  | .q1080p => 2
  | .q4k => 4
  | .unknownQ => 1

/-- `self.codec_multipliers` (lines 116-124); the `hevc` entry of the dict
is unreachable because `_analyze_filename` never emits `hevc`. -/
def codecMultiplier : SCodec → Rat
  | .h264 => 1
  | .h265 => mkRat 3 5
  | .mpeg4 => mkRat 7 5
  | .xvid => mkRat 6 5
  | .avi => mkRat 3 2
  | .unknownC => 1

/-- The part of the `_analyze_filename` result consumed by
`_calculate_expected_size` and `_check_episode_consistency`. -/
structure FilenameAnalysis where
  quality : Quality
  codec : SCodec
  isTvEpisode : Bool
  showName : Option String
deriving DecidableEq, Repr

/-- `VideoSizeChecker._calculate_expected_size` (lines 251-282):
`base_minutes * mb_per_minute * quality_multiplier * codec_multiplier`,
floored at 50.0 MB.  The `except` branch (returning 200.0) guards only
against runtime faults of the arithmetic, which cannot occur here. -/
def calculateExpectedSize (cfg : SizeCheckerCfg) (an : FilenameAnalysis)
    (mode : PMode) : Rat :=
  let baseMinutes := if mode = .tv then cfg.tvDurationMinutes else cfg.movieDurationMinutes
  let mbPerMinute := if mode = .tv then cfg.tvMbPerMinute else cfg.movieMbPerMinute
  let baseSize := baseMinutes * mbPerMinute
  let expected := baseSize * qualityMultiplier an.quality * codecMultiplier an.codec
  max expected 50

/-- The guarded division of `check_file_size` (lines 162):
`size_ratio = file_size_mb / expected_size if expected_size > 0 else 0`. -/
def guardedSizeQuotient (actualMb expected : Rat) : Rat :=
  if expected > 0 then actualMb / expected else 0

/-- The per-show rolling window `self.episode_cache`, keyed by show name
(only the `sizes` list matters; `last_updated` is unread). -/
abbrev EpisodeCache := List (String × List Rat)

/-- Numeric rank of a severity, for stating that the consistency step never
lowers it. -/
def sevRank : Severity → Nat
  | .normal => 0
  | .warning => 1
  | .critical => 2

/-- Lookup in the episode cache. -/
def lookupSizes : List (String × List Rat) → String → Option (List Rat)
  | [], _ => none
  | (k2, v) :: rest, k => if k2 = k then some v else lookupSizes rest k

/-- Dict assignment in the episode cache (update in place or append). -/
def setSizes : List (String × List Rat) → String → List Rat → List (String × List Rat)
  | [], k, v => [(k, v)]
  | (k2, v2) :: rest, k, v =>
      if k2 = k then (k2, v) :: rest else (k2, v2) :: setSizes rest k v

/-- The window update of `_check_episode_consistency` (lines 362-367):
append the current size, then keep only the last `tv_episode_cache_size`
entries.  For a configured size of `0` the Python slice `sizes[-0:]` is the
whole list, so no trimming happens. -/
def updatedWindow (cfg : SizeCheckerCfg) (prior : List Rat) (actualMb : Rat) : List Rat :=
  let s1 := prior ++ [actualMb]
  if cfg.tvEpisodeCacheSize = 0 then s1
  else if s1.length > cfg.tvEpisodeCacheSize then
    s1.drop (s1.length - cfg.tvEpisodeCacheSize)
  else s1

/-- `VideoSizeChecker._check_episode_consistency` (lines 349-396).  Returns
(is_inconsistent, severity, updated cache).  `statistics.mean` over the
window minus its last element; the computed standard deviation of the source
is discarded unused (its only role is a `StatisticsError` guard that cannot
fire when the list has more than one element).  An absent or empty show name
and a disabled pattern cache short-circuit before touching the cache. -/
def checkEpisodeConsistency (cfg : SizeCheckerCfg) (an : FilenameAnalysis)
    (actualMb : Rat) (cache : EpisodeCache) : Bool × Severity × EpisodeCache :=
  match an.showName with
  | none => (false, .normal, cache)
  | some name =>
      if name = "" then (false, .normal, cache)
      else if ¬ cfg.cachePatterns then (false, .normal, cache)
      else
        let sizes2 := updatedWindow cfg ((lookupSizes cache name).getD []) actualMb
        let cache2 := setSizes cache name sizes2
        if sizes2.length < 3 then (false, .normal, cache2)
        else
          let prev := sizes2.dropLast
          let meanSize := prev.sum / (prev.length : Rat)
          if prev.length > 1 then
            let deviation := if meanSize > 0 then |actualMb - meanSize| / meanSize else 0
            if deviation > cfg.tvWarningThreshold then
              (true, if deviation < 2 then .warning else .critical, cache2)
            else (false, .normal, cache2)
          else (false, .normal, cache2)

/-- The verdict dictionary returned by `_evaluate_size_ratio`
(lines 338-347), with the reason string abstracted to tags.  The echoed
threshold fields only repeat configuration and are omitted. -/
structure SizeVerdict where
  isAbnormal : Bool
  severity : Severity
  reasonTags : List SizeReason
  recommendation : SizeRec
deriving DecidableEq, Repr

/-- The mode switch of `_evaluate_size_ratio` (lines 290-299): which
maximum multiplier applies. -/
def maxMultiplierFor (cfg : SizeCheckerCfg) (mode : PMode) : Rat :=
  if mode = .tv then cfg.tvMaxMultiplier else cfg.movieMaxMultiplier

/-- The mode switch of `_evaluate_size_ratio`: which minimum multiplier
applies. -/
def minMultiplierFor (cfg : SizeCheckerCfg) (mode : PMode) : Rat :=
  if mode = .tv then cfg.tvMinMultiplier else cfg.movieMinMultiplier

/-- The mode switch of `_evaluate_size_ratio`: which warning threshold
applies. -/
def warningThresholdFor (cfg : SizeCheckerCfg) (mode : PMode) : Rat :=
  if mode = .tv then cfg.tvWarningThreshold else cfg.movieWarningThreshold

/-- The mode switch of `_evaluate_size_ratio`: whether consistency checking
is enabled for the mode. -/
def consistencyCheckingFor (cfg : SizeCheckerCfg) (mode : PMode) : Bool :=
  if mode = .tv then cfg.tvConsistencyChecking else cfg.movieConsistencyChecking

/-- The threshold chain of `_evaluate_size_ratio` (lines 301-327), before
the episode-consistency step: oversized, then warning, then undersized,
else normal. -/
def thresholdEval (cfg : SizeCheckerCfg) (mode : PMode) (rq : Rat) : SizeVerdict :=
  let maxMultiplier := maxMultiplierFor cfg mode
  let minMultiplier := minMultiplierFor cfg mode
  let warningThreshold := warningThresholdFor cfg mode
  if rq > maxMultiplier then
    { isAbnormal := true
      severity := .critical
      reasonTags := [.overMax]
      recommendation := if cfg.autoMarkRb then .markRb else .review }
  else if rq > warningThreshold then
    { isAbnormal := true
      severity := .warning
      reasonTags := [.overWarning]
      recommendation := .review }
  else if rq < minMultiplier then
    { isAbnormal := true
      severity := .critical
      reasonTags := [.underMin]
      recommendation := if cfg.autoMarkRb then .markRb else .review }
  else
    { isAbnormal := false
      severity := .normal
      reasonTags := [.withinExpected]
      recommendation := .proceed }

/-- `VideoSizeChecker._evaluate_size_ratio` (lines 284-347): the threshold
chain followed by the TV-episode consistency step (lines 329-336), which
runs only in tv mode for a recognised episode with consistency checking
enabled and, when it flags, sets `is_abnormal`, upgrades a `normal`
severity, and appends to the reason. -/
def evaluateSize (cfg : SizeCheckerCfg) (mode : PMode) (rq actualMb : Rat)
    (an : FilenameAnalysis) (cache : EpisodeCache) : SizeVerdict × EpisodeCache :=
  let base := thresholdEval cfg mode rq
  if mode = .tv ∧ an.isTvEpisode ∧ consistencyCheckingFor cfg mode then
    let r := checkEpisodeConsistency cfg an actualMb cache
    if r.1 then
      ({ base with
          isAbnormal := true
          severity := if base.severity = .normal then r.2.1 else base.severity
          reasonTags := base.reasonTags ++ [.inconsistentWithEpisodes] }, r.2.2)
    else (base, r.2.2)
  else (base, cache)

/-- Whether the consistency step both runs and flags for the given input:
exactly the condition under which `_evaluate_size_ratio` departs from the
pure threshold classification. -/
def consistencyFired (cfg : SizeCheckerCfg) (mode : PMode) (actualMb : Rat)
    (an : FilenameAnalysis) (cache : EpisodeCache) : Bool :=
  decide (mode = .tv ∧ an.isTvEpisode ∧ consistencyCheckingFor cfg mode) &&
    (checkEpisodeConsistency cfg an actualMb cache).1

/-- Length of the rolling window for the show of `an` after the consistency
step has appended and trimmed (0 when no show name is present). -/
def windowLenAfter (cfg : SizeCheckerCfg) (an : FilenameAnalysis)
    (actualMb : Rat) (cache : EpisodeCache) : Nat :=
  match an.showName with
  | none => 0
  | some name => (updatedWindow cfg ((lookupSizes cache name).getD []) actualMb).length

/-- Modelled from the spec (section 4.2): the size-ratio classification in
the words of the specification, for comparison with the code.  With
auto-mark-rb enabled, quarantine is realised as `mark_rb`.
`ratio > max_multiplier` gives critical/quarantine; otherwise
`ratio > warning_threshold` gives warning/review; otherwise
`ratio < min_multiplier` gives critical/quarantine; otherwise
normal/proceed. -/
def specSizeClassification (cfg : SizeCheckerCfg) (mode : PMode)
    (rq : Rat) : Severity × SizeRec :=
  if rq > maxMultiplierFor cfg mode then (.critical, .markRb)
  else if rq > warningThresholdFor cfg mode then (.warning, .review)
  else if rq < minMultiplierFor cfg mode then (.critical, .markRb)
  else (.normal, .proceed)

/-! ## Action planner (`src/analyzer.py` lines 758-869)

`_determine_processing_actions` reads from the combined analysis dictionary
exactly the fields modelled in `AnalysisRecord`.  Each action dictionary is
abstracted to its `type` and `priority`; the `action`, `description` and
`details` entries are formatting payloads determined by the same
conditions. -/

inductive ActionType where
  | sizeProtection
  | sizeWarning
  | containerConversion
  | videoConversion
  | audioCleanup
  | subtitleCleanup
  | filenameStandardization
deriving DecidableEq, Repr

inductive ActionPriority where
  | critical
  | warning
  | high
  | medium
  | low
deriving DecidableEq, Repr

structure ProcessingAction where
  actionType : ActionType
  priority : ActionPriority
deriving DecidableEq, Repr

/-- Python `str.lower()` on the ASCII format and codec strings the planner
compares, as a character-wise map. -/
def lowerString (s : String) : String := ⟨s.data.map Char.toLower⟩

/-- The fields of the combined analysis dictionary that
`_determine_processing_actions` reads.  `originalFormat` is the suffix
string stored by `_parse_ffprobe_data` (uppercased there, lowercased again
by the planner); `videoCodec` is the primary video codec, the empty string
when the file has no video stream; the two track lists carry the stream
indices of the non-English tracks. -/
structure AnalysisRecord where
  sizeAbnormal : Bool
  sizeSeverity : Severity
  sizeRecommendation : SizeRec
  originalFormat : String
  videoCodec : String
  nonEnglishAudio : List Nat
  nonEnglishSubtitles : List Nat
deriving DecidableEq, Repr

/-- `VideoAnalyzer._determine_processing_actions` (lines 758-869).  A
`mark_rb` recommendation on an abnormal size returns the single
size-protection action immediately; otherwise the list is built in source
order and always ends with the filename-standardization action. -/
def determineProcessingActions (a : AnalysisRecord) : List ProcessingAction :=
  let sizeActions : List ProcessingAction :=
    if a.sizeAbnormal then
      if a.sizeRecommendation = .markRb then [⟨.sizeProtection, .critical⟩]
      else if a.sizeRecommendation = .review then [⟨.sizeWarning, .warning⟩]
      else []
    else []
  if a.sizeAbnormal ∧ a.sizeRecommendation = .markRb then sizeActions
  else
    let fmt := lowerString a.originalFormat
    let containerActions : List ProcessingAction :=
      if fmt ≠ "mkv" then [⟨.containerConversion, .high⟩] else []
    let codec := lowerString a.videoCodec
    let videoActions : List ProcessingAction :=
      if codec ≠ "" ∧ codec ≠ "h265" ∧ codec ≠ "hevc" then
        [⟨.videoConversion, .high⟩]
      else []
    let audioActions : List ProcessingAction :=
      if a.nonEnglishAudio ≠ [] then [⟨.audioCleanup, .medium⟩] else []
    let subtitleActions : List ProcessingAction :=
      if a.nonEnglishSubtitles ≠ [] then [⟨.subtitleCleanup, .medium⟩] else []
    sizeActions ++ containerActions ++ videoActions ++ audioActions ++
      subtitleActions ++ [⟨.filenameStandardization, .low⟩]

/-- How `analyze_file` (lines 199-209) copies a size-check verdict into the
combined analysis dictionary consumed by the planner. -/
def analysisOfVerdict (v : SizeVerdict) (originalFormat videoCodec : String)
    (nonEnglishAudio nonEnglishSubtitles : List Nat) : AnalysisRecord :=
  { sizeAbnormal := v.isAbnormal
    sizeSeverity := v.severity
    sizeRecommendation := v.recommendation
    originalFormat := originalFormat
    videoCodec := videoCodec
    nonEnglishAudio := nonEnglishAudio
    nonEnglishSubtitles := nonEnglishSubtitles }

/-! ## Analyzer caching (`src/analyzer.py` lines 167-396)

Two layers: the per-instance `analysis_cache` dictionary of `analyze_file`,
keyed by the f-string of path and full float mtime, and the
`functools.lru_cache` on `_cached_ffprobe_analysis`, keyed (through
`_get_file_cache_key`) by path, `int(mtime)` and size.  The external
`ffprobe` run is an oracle `env : FileMeta → ProbeOut`; `invocations`
counts how many times the tool is spawned.  Successful runs return after
one spawn; a failing run is retried `retry_attempts` more times inside one
`_cached_ffprobe_analysis` call, all with the same deterministic outcome.
Files are assumed to exist (the not-found early return is outside every
property) and `dry_run` is false. -/

structure FileMeta where
  path : String
  mtime : Rat
  size : Nat
  content : Nat
deriving DecidableEq, Repr

/-- Outcome of one ffprobe spawn: an error flag and an abstract payload
(the parsed JSON for successes, the message for failures). -/
structure ProbeOut where
  hasError : Bool
  payload : Nat
deriving DecidableEq, Repr

/-- Key of the outer `analysis_cache`:
`f"{file_path}_{file_path.stat().st_mtime}"` (line 183) — path and the
full float mtime, size not included. -/
def outerKey (f : FileMeta) : String × Rat := (f.path, f.mtime)

/-- Key of the memoized probe layer, from `_get_file_cache_key`
(lines 256-270): path, `int(stat.st_mtime)` and size (the md5 hashing is
injective for the purposes of the model).  Python `int()` truncation agrees
with the floor on the non-negative mtimes the OS reports. -/
def probeKey (f : FileMeta) : String × Int × Nat := (f.path, f.mtime.floor, f.size)

/-- The `maxsize` of the `lru_cache` decorator on
`_cached_ffprobe_analysis` (line 272). -/
def ffprobeLruMaxsize : Nat := 500

/-- An analysis result: the error dictionary of `_create_error_result`, or
the combined analysis whose payload is the probe data together with the
file size read at analysis time. -/
inductive AnalyzeRes where
  | errorRes (msg : Nat)
  | okRes (probePayload : Nat) (sizeBytes : Nat)
deriving DecidableEq, Repr

/-- The mutable caches of one `VideoAnalyzer` instance plus the spawn
counter of the external tool. -/
structure AnalyzerState where
  analysisCache : List ((String × Rat) × AnalyzeRes)
  lruProbe : List ((String × Int × Nat) × ProbeOut)
  invocations : Nat
deriving DecidableEq, Repr

def initAnalyzerState : AnalyzerState := ⟨[], [], 0⟩

/-- Configuration read by `analyze_file`: `analysis.cache_results`,
`performance.max_cache_entries` and `ffprobe.retry_attempts`. -/
structure AnalyzerCfg where
  cacheResults : Bool
  maxCacheEntries : Nat
  retryAttempts : Nat
deriving Repr

/-- Generic association-list lookup used for both cache layers. -/
def lookupAssoc {α β : Type} [DecidableEq α] : List (α × β) → α → Option β
  | [], _ => none
  | (k2, v) :: rest, k => if k2 = k then some v else lookupAssoc rest k

/-- LRU bookkeeping of `functools.lru_cache`: a hit moves the entry to the
most-recent position (front). -/
def lruMoveToFront {α β : Type} [DecidableEq α] (c : List (α × β)) (k : α) (v : β) :
    List (α × β) :=
  (k, v) :: c.filter fun kv => kv.1 ≠ k

/-- The retry loop of `_cached_ffprobe_analysis` (lines 295-356) against a
deterministic tool: one spawn on success, `retry_attempts + 1` spawns when
the tool keeps failing, with the error result returned (and memoized) after
the last attempt.  Returns the result together with the spawn count. -/
def runWithRetries (env : FileMeta → ProbeOut) (retryAttempts : Nat)
    (f : FileMeta) : ProbeOut × Nat :=
  if (env f).hasError then (env f, retryAttempts + 1) else (env f, 1)

/-- The memoized probe layer: `lru_cache` lookup on `probeKey`, spawning
the tool only on a miss; both successes and error dictionaries are
memoized.  Returns the probe outcome, the updated LRU list and the number
of spawns performed. -/
def probeViaLru (env : FileMeta → ProbeOut) (retryAttempts : Nat)
    (c : List ((String × Int × Nat) × ProbeOut)) (f : FileMeta) :
    ProbeOut × List ((String × Int × Nat) × ProbeOut) × Nat :=
  match lookupAssoc c (probeKey f) with
  | some r => (r, lruMoveToFront c (probeKey f) r, 0)
  | none =>
      let rn := runWithRetries env retryAttempts f
      (rn.1, ((probeKey f, rn.1) :: c).take ffprobeLruMaxsize, rn.2)

/-- `VideoAnalyzer.analyze_file` (lines 167-248) with `dry_run = false` for
an existing file: serve from `analysis_cache` when enabled and hit;
otherwise probe through the memoized layer, return the error result
uncached on probe failure, and otherwise build the combined analysis,
append it to `analysis_cache` (dict insertion order) and evict
oldest-inserted-first down to `max_cache_entries` — except that a
configured maximum of `0` makes the Python slice `keys[:-0]` empty, so
nothing is evicted. -/
def analyzeFile (cfg : AnalyzerCfg) (env : FileMeta → ProbeOut) (f : FileMeta)
    (st : AnalyzerState) : AnalyzeRes × AnalyzerState :=
  let cachedHit :=
    if cfg.cacheResults then lookupAssoc st.analysisCache (outerKey f) else none
  match cachedHit with
  | some r => (r, st)
  | none =>
      let pr := probeViaLru env cfg.retryAttempts st.lruProbe f
      let st1 : AnalyzerState :=
        { st with lruProbe := pr.2.1, invocations := st.invocations + pr.2.2 }
      if pr.1.hasError then (.errorRes pr.1.payload, st1)
      else
        let r : AnalyzeRes := .okRes pr.1.payload f.size
        if cfg.cacheResults then
          let c1 := st1.analysisCache ++ [(outerKey f, r)]
          let c2 :=
            if c1.length > cfg.maxCacheEntries ∧ cfg.maxCacheEntries ≠ 0 then
              c1.drop (c1.length - cfg.maxCacheEntries)
            else c1
          (r, { st1 with analysisCache := c2 })
        else (r, st1)

/-! ## Transcode execution (`src/processor.py`)

`_execute_ffmpeg_processing` (lines 346-462) and the temp-file cleanup of
`ProcessingContext` (lines 75-83).  The filesystem is reduced to the two
paths the function touches: the original input file and the temporary
output file (whose timestamped name is fresh, so it starts absent).  The
ffmpeg subprocess reads the input with `-i` and writes only the temporary
output; its outcome, and whether the unlink/move of the replace step raise
an OS error, are environment inputs. -/

/-- Contents of the two relevant paths (`none` = the path does not
exist). -/
structure ProcFS where
  original : Option Nat
  temp : Option Nat
deriving DecidableEq, Repr

/-- Outcome of the ffmpeg subprocess: a timeout or a non-zero exit (either
may leave a partial temporary file behind), or exit code zero with the
temporary output present (content and size in MB) or absent. -/
inductive FFRun where
  | timedOut (tempLeft : Option Nat)
  | nonzeroExit (tempLeft : Option Nat)
  | exitOk (tempOut : Option (Nat × Rat))
deriving DecidableEq, Repr

/-- Environment of one `_execute_ffmpeg_processing` call. -/
structure ExecEnv where
  ffmpegFound : Bool
  run : FFRun
  unlinkRaises : Bool
  moveRaises : Bool
deriving Repr

/-- The distinct error returns of `_execute_ffmpeg_processing`, one per
`error_message` site. -/
inductive ExecErr where
  | noFFmpeg
  | ffmpegFailed
  | timedOut
  | missingOutput
  | tooSmall
  | tooLarge
  | replaceFailed
deriving DecidableEq, Repr

inductive ExecResult where
  | success (outSizeMb : Rat)
  | failure (err : ExecErr)
deriving DecidableEq, Repr

/-- The safety settings the function reads (constructor lines 141-143). -/
structure ProcCfg where
  verifyOutputSize : Bool
  minimumOutputSizeMb : Rat
  maximumOutputSizeGb : Rat
deriving Repr

/-- `VideoProcessor._execute_ffmpeg_processing` (lines 346-462): run
ffmpeg into the temporary file, verify existence and size bounds, then
replace the original by first unlinking it (line 426) and then moving the
temporary file into place (line 428); any exception of the replace step is
caught and returned as the replace-failure error.  Returns the result and
the filesystem after the call (before context cleanup). -/
def executeFFmpegProcessing (cfg : ProcCfg) (env : ExecEnv) (fs : ProcFS) :
    ExecResult × ProcFS :=
  if ¬ env.ffmpegFound then (.failure .noFFmpeg, fs)
  else
    match env.run with
    | .timedOut t => (.failure .timedOut, { fs with temp := t })
    | .nonzeroExit t => (.failure .ffmpegFailed, { fs with temp := t })
    | .exitOk none => (.failure .missingOutput, { fs with temp := none })
    | .exitOk (some co) =>
        let fs1 : ProcFS := { fs with temp := some co.1 }
        if cfg.verifyOutputSize ∧ co.2 < cfg.minimumOutputSizeMb then
          (.failure .tooSmall, fs1)
        else if cfg.verifyOutputSize ∧ co.2 > cfg.maximumOutputSizeGb * 1024 then
          (.failure .tooLarge, fs1)
        else
          match fs1.original with
          | some _ =>
              if env.unlinkRaises then (.failure .replaceFailed, fs1)
              else
                let fs2 : ProcFS := { fs1 with original := none }
                if env.moveRaises then (.failure .replaceFailed, fs2)
                else (.success co.2, { original := some co.1, temp := none })
          | none =>
              if env.moveRaises then (.failure .replaceFailed, fs1)
              else (.success co.2, { original := some co.1, temp := none })

/-- `ProcessingContext._cleanup_temp_files` (lines 75-83) as run by the
context exit in `process_file`: the temporary output path was registered by
`context.add_temp_file` only when ffmpeg was found (line 369), and is
unlinked if it still exists. -/
def cleanupTempFiles (registered : Bool) (fs : ProcFS) : ProcFS :=
  if registered then { fs with temp := none } else fs

/-- The filesystem once `process_file` returns: `_execute_ffmpeg_processing`
followed by the context cleanup. -/
def processFileFS (cfg : ProcCfg) (env : ExecEnv) (fs : ProcFS) :
    ExecResult × ProcFS :=
  let r := executeFFmpegProcessing cfg env fs
  (r.1, cleanupTempFiles env.ffmpegFound r.2)

/-! ## Theorems -/

theorem sumStats_updateStatistics (oldState newState : FileState) (st : Statistics) :
    sumStats (updateStatistics oldState newState st) = sumStats st := by
  cases oldState <;> cases newState <;>
    simp [updateStatistics, decStat, incStat, sumStats] <;> ring

theorem sumStats_updateFileState (path : String) (newState : FileState)
    (err : Option String) (pt : Rat) (osz psz : Option Int) (now : Nat)
    (s : RecoveryState) :
    sumStats (updateFileState path newState err pt osz psz now s).statistics
      = sumStats s.statistics := by
  simp only [updateFileState]
  exact sumStats_updateStatistics _ _ _

theorem total_updateFileState (path : String) (newState : FileState)
    (err : Option String) (pt : Rat) (osz psz : Option Int) (now : Nat)
    (s : RecoveryState) :
    (updateFileState path newState err pt osz psz now s).sessionInfo.totalFilesFound
      = s.sessionInfo.totalFilesFound := by
  simp [updateFileState]

theorem sumStats_applyOp (s : RecoveryState) (op : RecoveryOp) :
    sumStats (applyOp s op).statistics = sumStats s.statistics := by
  cases op <;>
    simp [applyOp, markFileInProgress, markFileCompleted, markFileFailed,
      markFileCorrupted, markFileRb, markFileSkipped, sumStats_updateFileState]

theorem total_applyOp (s : RecoveryState) (op : RecoveryOp) :
    (applyOp s op).sessionInfo.totalFilesFound = s.sessionInfo.totalFilesFound := by
  cases op <;>
    simp [applyOp, markFileInProgress, markFileCompleted, markFileFailed,
      markFileCorrupted, markFileRb, markFileSkipped, total_updateFileState]

theorem stateSum_applyOps (ops : List RecoveryOp) (s : RecoveryState)
    (h : sumStats s.statistics = (s.sessionInfo.totalFilesFound : Int)) :
    sumStats (applyOps ops s).statistics
      = ((applyOps ops s).sessionInfo.totalFilesFound : Int) := by
  induction ops generalizing s with
  | nil => simpa [applyOps] using h
  | cons op rest ih =>
      have hstep : sumStats (applyOp s op).statistics
          = ((applyOp s op).sessionInfo.totalFilesFound : Int) := by
        rw [sumStats_applyOp, total_applyOp]; exact h
      simpa [applyOps] using ih (applyOp s op) hstep

/-- C2.  State-sum invariant: after `start_session` over `N` files and any
sequence of `update_file_state` / `mark_*` calls (including calls naming
paths never registered at session start), the seven per-state counters of
`statistics` sum to `session_info.total_files_found`. -/
theorem state_sum_invariant (mode dir : String) (files : List String)
    (now : Nat) (s0 : RecoveryState) (ops : List RecoveryOp) :
    sumStats (applyOps ops (startSession mode dir files now s0).2).statistics
      = ((applyOps ops
          (startSession mode dir files now s0).2).sessionInfo.totalFilesFound : Int) := by
  apply stateSum_applyOps
  simp [startSession, freshStatistics, sumStats]

/-- C1.  Evaluation of the resume path at the failing input.  A first run
starts a session over two files and completes the first; after a restart,
`run_processing` calls `start_session` again before consulting
`can_resume_session`, so the store reports a fresh session id, the resume
branch is taken, and `get_pending_files` returns both files — the completed
file included — instead of the one remaining file. -/
theorem run_processing_restart_reprocesses_completed :
    (runProcessingPrelude "tv" "/d" ["/d/a", "/d/b"] 200
        (markFileCompleted "/d/a" 5 (some 1000) (some 700) 102
          (markFileInProgress "/d/a" 101
            (startSession "tv" "/d" ["/d/a", "/d/b"] 100
              initialRecoveryState).2))).1 = "tv_200" ∧
    "tv_200" ≠ "tv_100" ∧
    ((lookupFile (markFileCompleted "/d/a" 5 (some 1000) (some 700) 102
        (markFileInProgress "/d/a" 101
          (startSession "tv" "/d" ["/d/a", "/d/b"] 100
            initialRecoveryState).2)).fileStates "/d/a").map FileInfo.state
      = some .completed) ∧
    canResumeSession
      (runProcessingPrelude "tv" "/d" ["/d/a", "/d/b"] 200
        (markFileCompleted "/d/a" 5 (some 1000) (some 700) 102
          (markFileInProgress "/d/a" 101
            (startSession "tv" "/d" ["/d/a", "/d/b"] 100
              initialRecoveryState).2))).2.2 = true ∧
    (runProcessingPrelude "tv" "/d" ["/d/a", "/d/b"] 200
        (markFileCompleted "/d/a" 5 (some 1000) (some 700) 102
          (markFileInProgress "/d/a" 101
            (startSession "tv" "/d" ["/d/a", "/d/b"] 100
              initialRecoveryState).2))).2.1 = ["/d/a", "/d/b"] := by
  decide

/-- C4, counterexample.  When the state file on disk is a truncated leftover
of an interrupted write, `_save_state` renames it over the good backup, and
during the subsequent write neither the state file nor the backup is a
complete snapshot; the claimed at-every-instant guarantee fails. -/
theorem save_state_truncated_current_loses_snapshot :
    (saveStateTrace 1 ⟨some .truncated, some (.complete 0)⟩).all hasCompleteSnapshot
      = false := by
  decide

/-- C4, amended.  Provided the state file is a complete snapshot before the
save — or is absent while the backup is complete — every intermediate disk
state of `_save_state` keeps at least one complete, parseable snapshot
among the state file and the backup. -/
theorem save_state_crash_safety_amended (newSnap : Nat) (d : StateDisk)
    (h : saveSafePrecondition d = true) :
    (saveStateTrace newSnap d).all hasCompleteSnapshot = true := by
  obtain ⟨cur, bak⟩ := d
  match cur, bak with
  | some (.complete n), _ =>
      simp [saveStateTrace, hasCompleteSnapshot]
  | some .truncated, _ =>
      simp [saveSafePrecondition] at h
  | none, some (.complete n) =>
      simp [saveStateTrace, hasCompleteSnapshot]
  | none, some .truncated =>
      simp [saveSafePrecondition] at h
  | none, none =>
      simp [saveSafePrecondition] at h

/-- Witness for the amended C4 theorem at a concrete disk state. -/
theorem save_state_crash_safety_amended_witness :
    saveSafePrecondition ⟨some (.complete 7), none⟩ = true ∧
    (saveStateTrace 8 ⟨some (.complete 7), none⟩).all hasCompleteSnapshot = true :=
  ⟨by decide, save_state_crash_safety_amended 8 ⟨some (.complete 7), none⟩ (by decide)⟩

/-- C10.  The expected size computed by `_calculate_expected_size` is at
least 50 MB, hence positive, for every filename analysis, every mode and
every configuration, so the zero-expected-size guard of `check_file_size`
is unreachable and the size ratio is a genuine division.  (The internal
error path returning 200.0 only guards runtime faults of the arithmetic,
which the embedding shows cannot occur.) -/
theorem expected_size_positive (cfg : SizeCheckerCfg) (an : FilenameAnalysis)
    (mode : PMode) (actualMb : Rat) :
    50 ≤ calculateExpectedSize cfg an mode ∧
    0 < calculateExpectedSize cfg an mode ∧
    guardedSizeQuotient actualMb (calculateExpectedSize cfg an mode)
      = actualMb / calculateExpectedSize cfg an mode := by
  have h50 : (50 : Rat) ≤ calculateExpectedSize cfg an mode := by
    simp only [calculateExpectedSize]
    exact le_max_right _ _
  have hpos : (0 : Rat) < calculateExpectedSize cfg an mode :=
    lt_of_lt_of_le (by norm_num) h50
  exact ⟨h50, hpos, by simp [guardedSizeQuotient, hpos]⟩

theorem evaluateSize_recommendation (cfg : SizeCheckerCfg) (mode : PMode)
    (rq actualMb : Rat) (an : FilenameAnalysis) (cache : EpisodeCache) :
    (evaluateSize cfg mode rq actualMb an cache).1.recommendation
      = (thresholdEval cfg mode rq).recommendation := by
  simp only [evaluateSize]
  split
  · split <;> rfl
  · rfl

theorem thresholdEval_spec (cfg : SizeCheckerCfg) (mode : PMode) (rq : Rat)
    (h : cfg.autoMarkRb = true) :
    (thresholdEval cfg mode rq).recommendation = (specSizeClassification cfg mode rq).2 ∧
    (thresholdEval cfg mode rq).severity = (specSizeClassification cfg mode rq).1 ∧
    (thresholdEval cfg mode rq).isAbnormal
      = ((specSizeClassification cfg mode rq).2 ≠ SizeRec.proceed) := by
  simp only [thresholdEval, specSizeClassification]
  split_ifs <;> simp_all

theorem evaluateSize_not_fired (cfg : SizeCheckerCfg) (mode : PMode)
    (rq actualMb : Rat) (an : FilenameAnalysis) (cache : EpisodeCache)
    (h : consistencyFired cfg mode actualMb an cache = false) :
    (evaluateSize cfg mode rq actualMb an cache).1 = thresholdEval cfg mode rq := by
  unfold consistencyFired at h
  simp only [evaluateSize]
  split
  next hg =>
      have hflag : (checkEpisodeConsistency cfg an actualMb cache).1 = false := by
        simp only [Bool.and_eq_false_iff, decide_eq_false_iff_not] at h
        rcases h with h | h
        · exact absurd hg h
        · exact h
      simp [hflag]
  next hg => rfl

/-- C6, counterexample.  In tv mode, for a recognised episode whose window
already holds two samples, a size in the normal threshold band is still
classified with severity `critical` by `_evaluate_size_ratio` because the
advisory consistency step upgrades the severity — the spec classification
says `normal`.  The recommendation is untouched. -/
theorem size_consistency_raises_severity_in_normal_band :
    (evaluateSize defaultSizeCfg .tv 1 600 ⟨.unknownQ, .unknownC, true, some "Show"⟩
        [("Show", [100, 100])]).1.severity = .critical ∧
    (evaluateSize defaultSizeCfg .tv 1 600 ⟨.unknownQ, .unknownC, true, some "Show"⟩
        [("Show", [100, 100])]).1.recommendation = .proceed ∧
    (specSizeClassification defaultSizeCfg .tv 1).1 = .normal := by
  have hmax : mkRat 5 2 = (5 : Rat) / 2 := by
    rw [Rat.mkRat_eq_divInt, Rat.divInt_eq_div]; norm_num
  have hmin : mkRat 3 10 = (3 : Rat) / 10 := by
    rw [Rat.mkRat_eq_divInt, Rat.divInt_eq_div]; norm_num
  have hwarn : mkRat 3 2 = (3 : Rat) / 2 := by
    rw [Rat.mkRat_eq_divInt, Rat.divInt_eq_div]; norm_num
  norm_num [evaluateSize, thresholdEval, checkEpisodeConsistency, updatedWindow,
    lookupSizes, setSizes, maxMultiplierFor, minMultiplierFor, warningThresholdFor,
    consistencyCheckingFor, defaultSizeCfg, specSizeClassification, hmax, hmin, hwarn]
  decide

/-- C6, amended.  With auto-mark-rb enabled, the recommendation returned by
`_evaluate_size_ratio` always equals the spec threshold classification; the
severity (and the abnormal flag) also equal the spec classification
whenever the episode-consistency step does not flag the file — in movie
mode, for unrecognised episodes, with consistency checking disabled, with
fewer than three window samples, or within the deviation threshold. -/
theorem size_threshold_classification_amended (cfg : SizeCheckerCfg)
    (mode : PMode) (rq actualMb : Rat) (an : FilenameAnalysis)
    (cache : EpisodeCache) (hrb : cfg.autoMarkRb = true) :
    (evaluateSize cfg mode rq actualMb an cache).1.recommendation
        = (specSizeClassification cfg mode rq).2 ∧
    (consistencyFired cfg mode actualMb an cache = false →
      (evaluateSize cfg mode rq actualMb an cache).1.severity
          = (specSizeClassification cfg mode rq).1 ∧
      (evaluateSize cfg mode rq actualMb an cache).1.isAbnormal
          = ((specSizeClassification cfg mode rq).2 ≠ SizeRec.proceed)) := by
  refine ⟨?_, fun h => ?_⟩
  · rw [evaluateSize_recommendation]
    exact (thresholdEval_spec cfg mode rq hrb).1
  · rw [evaluateSize_not_fired cfg mode rq actualMb an cache h]
    exact ⟨(thresholdEval_spec cfg mode rq hrb).2.1, (thresholdEval_spec cfg mode rq hrb).2.2⟩

/-- Witness for the amended C6 theorem at a concrete input (movie mode, so
the consistency step does not run). -/
theorem size_threshold_classification_amended_witness :
    defaultSizeCfg.autoMarkRb = true ∧
    consistencyFired defaultSizeCfg .movie 100 ⟨.unknownQ, .unknownC, false, none⟩ [] = false ∧
    ((evaluateSize defaultSizeCfg .movie 10 100 ⟨.unknownQ, .unknownC, false, none⟩ []).1.recommendation
        = (specSizeClassification defaultSizeCfg .movie 10).2 ∧
      (consistencyFired defaultSizeCfg .movie 100 ⟨.unknownQ, .unknownC, false, none⟩ [] = false →
        (evaluateSize defaultSizeCfg .movie 10 100 ⟨.unknownQ, .unknownC, false, none⟩ []).1.severity
            = (specSizeClassification defaultSizeCfg .movie 10).1 ∧
        (evaluateSize defaultSizeCfg .movie 10 100 ⟨.unknownQ, .unknownC, false, none⟩ []).1.isAbnormal
            = ((specSizeClassification defaultSizeCfg .movie 10).2 ≠ SizeRec.proceed))) :=
  ⟨by decide, by decide,
    size_threshold_classification_amended defaultSizeCfg .movie 10 100
      ⟨.unknownQ, .unknownC, false, none⟩ [] (by decide)⟩

theorem consistency_flag_window (cfg : SizeCheckerCfg) (an : FilenameAnalysis)
    (actualMb : Rat) (cache : EpisodeCache)
    (h : (checkEpisodeConsistency cfg an actualMb cache).1 = true) :
    3 ≤ windowLenAfter cfg an actualMb cache := by
  cases han : an.showName with
  | none =>
      simp only [checkEpisodeConsistency, han] at h
      exact absurd h (by simp)
  | some name =>
      simp only [checkEpisodeConsistency, han] at h
      simp only [windowLenAfter, han]
      by_cases h1 : name = ""
      · rw [if_pos h1] at h
        simp at h
      · rw [if_neg h1] at h
        by_cases h2 : ¬ (cfg.cachePatterns = true)
        · rw [if_pos h2] at h
          simp at h
        · rw [if_neg h2] at h
          by_cases h3 :
              (updatedWindow cfg ((lookupSizes cache name).getD []) actualMb).length < 3
          · rw [if_pos h3] at h
            simp at h
          · omega

/-- C9.  The episode-consistency step is advisory only: in tv mode the
returned recommendation always equals the one determined by the size-ratio
thresholds alone; the severity is never lowered; the reason only gains an
appended suffix; an abnormal flag is never cleared; and inconsistency is
flagged only when the rolling window for the show holds at least three
samples. -/
theorem consistency_advisory_only (cfg : SizeCheckerCfg) (rq actualMb : Rat)
    (an : FilenameAnalysis) (cache : EpisodeCache) :
    (evaluateSize cfg .tv rq actualMb an cache).1.recommendation
        = (thresholdEval cfg .tv rq).recommendation ∧
    sevRank (thresholdEval cfg .tv rq).severity
        ≤ sevRank (evaluateSize cfg .tv rq actualMb an cache).1.severity ∧
    (thresholdEval cfg .tv rq).reasonTags
        <+: (evaluateSize cfg .tv rq actualMb an cache).1.reasonTags ∧
    ((thresholdEval cfg .tv rq).isAbnormal = true →
      (evaluateSize cfg .tv rq actualMb an cache).1.isAbnormal = true) ∧
    ((checkEpisodeConsistency cfg an actualMb cache).1 = true →
      3 ≤ windowLenAfter cfg an actualMb cache) := by
  have hsev : ∀ (b c : Severity), sevRank b ≤ sevRank (if b = Severity.normal then c else b) := by
    intro b c
    cases b <;> cases c <;> simp [sevRank]
  refine ⟨evaluateSize_recommendation cfg .tv rq actualMb an cache, ?_, ?_, ?_,
    consistency_flag_window cfg an actualMb cache⟩
  all_goals simp only [evaluateSize]
  · split
    · split
      · exact hsev _ _
      · simp
    · simp
  · split
    · split
      · exact List.prefix_append _ _
      · exact List.prefix_refl _
    · exact List.prefix_refl _
  · intro hab
    split
    · split <;> simp_all
    · exact hab

/-- Witness for the C9 theorem at a concrete tv-mode input whose
consistency step flags (three window samples, large deviation). -/
theorem consistency_advisory_only_witness :
    (evaluateSize defaultSizeCfg .tv 1 600 ⟨.unknownQ, .unknownC, true, some "S"⟩
        [("S", [100, 100])]).1.recommendation
        = (thresholdEval defaultSizeCfg .tv 1).recommendation ∧
    sevRank (thresholdEval defaultSizeCfg .tv 1).severity
        ≤ sevRank (evaluateSize defaultSizeCfg .tv 1 600
            ⟨.unknownQ, .unknownC, true, some "S"⟩ [("S", [100, 100])]).1.severity ∧
    (thresholdEval defaultSizeCfg .tv 1).reasonTags
        <+: (evaluateSize defaultSizeCfg .tv 1 600
            ⟨.unknownQ, .unknownC, true, some "S"⟩ [("S", [100, 100])]).1.reasonTags ∧
    ((thresholdEval defaultSizeCfg .tv 1).isAbnormal = true →
      (evaluateSize defaultSizeCfg .tv 1 600
          ⟨.unknownQ, .unknownC, true, some "S"⟩ [("S", [100, 100])]).1.isAbnormal = true) ∧
    ((checkEpisodeConsistency defaultSizeCfg ⟨.unknownQ, .unknownC, true, some "S"⟩
        600 [("S", [100, 100])]).1 = true →
      3 ≤ windowLenAfter defaultSizeCfg ⟨.unknownQ, .unknownC, true, some "S"⟩
          600 [("S", [100, 100])]) :=
  consistency_advisory_only defaultSizeCfg 1 600
    ⟨.unknownQ, .unknownC, true, some "S"⟩ [("S", [100, 100])]

theorem evaluateSize_markRb_abnormal (cfg : SizeCheckerCfg) (mode : PMode)
    (rq actualMb : Rat) (an : FilenameAnalysis) (cache : EpisodeCache)
    (h : (evaluateSize cfg mode rq actualMb an cache).1.recommendation = .markRb) :
    (evaluateSize cfg mode rq actualMb an cache).1.isAbnormal = true := by
  have hb : (thresholdEval cfg mode rq).recommendation = .markRb := by
    rw [← evaluateSize_recommendation cfg mode rq actualMb an cache]; exact h
  have hab : (thresholdEval cfg mode rq).isAbnormal = true := by
    simp only [thresholdEval] at hb ⊢
    split_ifs at hb ⊢ <;> simp_all
  simp only [evaluateSize]
  split
  · split <;> simp_all
  · exact hab

/-- C5.  Quarantine short-circuit: whenever the size evaluator returns the
`mark_rb` recommendation, the planner applied to the combined analysis
built from that verdict returns exactly the single size-protection
(mark-rollback) action — no container, video, track-pruning or rename
action is planned. -/
theorem quarantine_short_circuit (cfg : SizeCheckerCfg) (mode : PMode)
    (rq actualMb : Rat) (an : FilenameAnalysis) (cache : EpisodeCache)
    (fmt codec : String) (auds subs : List Nat)
    (h : (evaluateSize cfg mode rq actualMb an cache).1.recommendation = .markRb) :
    determineProcessingActions
        (analysisOfVerdict (evaluateSize cfg mode rq actualMb an cache).1
          fmt codec auds subs)
      = [⟨.sizeProtection, .critical⟩] := by
  have hab := evaluateSize_markRb_abnormal cfg mode rq actualMb an cache h
  simp [determineProcessingActions, analysisOfVerdict, h, hab]

/-- Witness for the C5 theorem: a tv-mode file far over the maximum
multiplier is recommended `mark_rb` and the plan is the single
size-protection action. -/
theorem quarantine_short_circuit_witness :
    (evaluateSize defaultSizeCfg .tv 10 1000
        ⟨.unknownQ, .unknownC, false, none⟩ []).1.recommendation = .markRb ∧
    determineProcessingActions
        (analysisOfVerdict (evaluateSize defaultSizeCfg .tv 10 1000
            ⟨.unknownQ, .unknownC, false, none⟩ []).1 "avi" "h264" [0] [1])
      = [⟨.sizeProtection, .critical⟩] :=
  ⟨by decide,
    quarantine_short_circuit defaultSizeCfg .tv 10 1000
      ⟨.unknownQ, .unknownC, false, none⟩ [] "avi" "h264" [0] [1] (by decide)⟩

/-- C7, counterexample.  An analysis with no video stream stores the empty
string as its video codec; the empty string is not in the target codec set,
yet the planner adds no video-conversion action, refuting the stated
if-and-only-if. -/
theorem empty_codec_plans_no_video_conversion :
    determineProcessingActions
        ⟨false, .normal, .proceed, "MKV", "", [], []⟩
      = [⟨.filenameStandardization, .low⟩] ∧
    (ActionType.videoConversion ∉
      (determineProcessingActions
          ⟨false, .normal, .proceed, "MKV", "", [], []⟩).map ProcessingAction.actionType) ∧
    ("" : String) ≠ "h265" ∧ ("" : String) ≠ "hevc" := by
  decide

/-- C7, amended.  For every planner input whose recommendation is not
`mark_rb`, the action list is, in order: an optional size-warning entry
(abnormal size with a `review` recommendation), then a container-conversion
action exactly when the container is not MKV, then a video-transcode action
exactly when the video codec is known (non-empty) and outside the target
set, then audio- and subtitle-pruning actions exactly when non-English
tracks of the respective kind exist, and finally the rename
(filename-standardization) action, always last. -/
theorem plan_ordering_amended (a : AnalysisRecord)
    (h : a.sizeRecommendation ≠ .markRb) :
    (determineProcessingActions a).map ProcessingAction.actionType =
      (if a.sizeAbnormal ∧ a.sizeRecommendation = .review
        then [ActionType.sizeWarning] else []) ++
      (if lowerString a.originalFormat ≠ "mkv"
        then [ActionType.containerConversion] else []) ++
      (if lowerString a.videoCodec ≠ "" ∧ lowerString a.videoCodec ≠ "h265" ∧
          lowerString a.videoCodec ≠ "hevc"
        then [ActionType.videoConversion] else []) ++
      (if a.nonEnglishAudio ≠ [] then [ActionType.audioCleanup] else []) ++
      (if a.nonEnglishSubtitles ≠ [] then [ActionType.subtitleCleanup] else []) ++
      [ActionType.filenameStandardization] ∧
    (determineProcessingActions a).getLast?
      = some ⟨.filenameStandardization, .low⟩ := by
  have hg : ¬(a.sizeAbnormal ∧ a.sizeRecommendation = .markRb) := by
    rintro ⟨-, hh⟩; exact h hh
  constructor
  · simp only [determineProcessingActions, if_neg hg]
    split_ifs <;> simp_all
  · simp only [determineProcessingActions, if_neg hg]
    split_ifs <;> simp [List.getLast?_concat]

/-- Witness for the amended C7 theorem at a concrete input needing every
action kind. -/
theorem plan_ordering_amended_witness :
    (⟨true, .warning, .review, "AVI", "h264", [1], [2]⟩ :
        AnalysisRecord).sizeRecommendation ≠ .markRb ∧
    ((determineProcessingActions
        ⟨true, .warning, .review, "AVI", "h264", [1], [2]⟩).map
          ProcessingAction.actionType =
      (if (true : Bool) ∧ SizeRec.review = SizeRec.review
        then [ActionType.sizeWarning] else []) ++
      (if lowerString "AVI" ≠ "mkv"
        then [ActionType.containerConversion] else []) ++
      (if lowerString "h264" ≠ "" ∧ lowerString "h264" ≠ "h265" ∧
          lowerString "h264" ≠ "hevc"
        then [ActionType.videoConversion] else []) ++
      (if ([1] : List Nat) ≠ [] then [ActionType.audioCleanup] else []) ++
      (if ([2] : List Nat) ≠ [] then [ActionType.subtitleCleanup] else []) ++
      [ActionType.filenameStandardization] ∧
    (determineProcessingActions
        ⟨true, .warning, .review, "AVI", "h264", [1], [2]⟩).getLast?
      = some ⟨.filenameStandardization, .low⟩) :=
  ⟨by decide, plan_ordering_amended ⟨true, .warning, .review, "AVI", "h264", [1], [2]⟩ (by decide)⟩

theorem take_lru_singleton {α : Type} (x : α) : ([x]).take ffprobeLruMaxsize = [x] := rfl

theorem analyzeFile_first (cfg : AnalyzerCfg) (env : FileMeta → ProbeOut)
    (f : FileMeta) (h1 : cfg.cacheResults = true)
    (h2 : 1 ≤ cfg.maxCacheEntries) (h3 : (env f).hasError = false) :
    analyzeFile cfg env f initAnalyzerState =
      (.okRes (env f).payload f.size,
        ⟨[(outerKey f, .okRes (env f).payload f.size)], [(probeKey f, env f)], 1⟩) := by
  have hnoevict : ¬(1 > cfg.maxCacheEntries ∧ cfg.maxCacheEntries ≠ 0) := by omega
  simp [analyzeFile, initAnalyzerState, lookupAssoc, probeViaLru, runWithRetries,
    h1, h3, take_lru_singleton, hnoevict]

theorem analyzeFile_cache_bound (cfg : AnalyzerCfg) (env : FileMeta → ProbeOut)
    (f : FileMeta) (s : AnalyzerState) (h2 : 1 ≤ cfg.maxCacheEntries)
    (h7 : s.analysisCache.length ≤ cfg.maxCacheEntries) :
    (analyzeFile cfg env f s).2.analysisCache.length ≤ cfg.maxCacheEntries := by
  simp only [analyzeFile]
  cases hc : (if cfg.cacheResults then lookupAssoc s.analysisCache (outerKey f) else none) with
  | some r => exact h7
  | none =>
      by_cases he : (probeViaLru env cfg.retryAttempts s.lruProbe f).1.hasError
      · simp only [he, if_true]
        exact h7
      · simp only [he, if_false, Bool.false_eq_true]
        by_cases hcr : cfg.cacheResults
        · simp only [hcr, if_true]
          split
          next hcond =>
              rw [List.length_drop]
              omega
          next hcond =>
              rw [Decidable.not_and_iff_or_not] at hcond
              rcases hcond with hcond | hcond
              · simp only [List.length_append, List.length_cons, List.length_nil] at hcond ⊢
                omega
              · omega
        · simp only [hcr, if_false]
          exact h7

theorem analyzeFile_cache_suffix (cfg : AnalyzerCfg) (env : FileMeta → ProbeOut)
    (f : FileMeta) (s : AnalyzerState) (h1 : cfg.cacheResults = true)
    (h3 : (env f).hasError = false)
    (h8 : lookupAssoc s.analysisCache (outerKey f) = none)
    (h9 : lookupAssoc s.lruProbe (probeKey f) = none) :
    (analyzeFile cfg env f s).2.analysisCache
      <:+ s.analysisCache ++ [(outerKey f, .okRes (env f).payload f.size)] := by
  simp only [analyzeFile, probeViaLru, runWithRetries, h1, h3, h8, if_true,
    Bool.false_eq_true, if_false, h9]
  split
  · exact List.drop_suffix _ _
  · exact List.suffix_refl _

/-- C8, counterexample.  A sub-second mtime change (1/2 to 3/4 of a second)
misses the outer analysis cache, but the memoized probe layer keys on the
truncated mtime, so the second analysis performs no fresh tool invocation
and even returns the stale probe payload of the old file contents. -/
theorem subsecond_mtime_change_serves_stale_probe :
    ((analyzeFile ⟨true, 100, 2⟩ (fun fm => ⟨false, fm.content⟩)
        ⟨"p", mkRat 3 4, 100, 2⟩
        (analyzeFile ⟨true, 100, 2⟩ (fun fm => ⟨false, fm.content⟩)
          ⟨"p", mkRat 1 2, 100, 1⟩ initAnalyzerState).2).2.invocations = 1) ∧
    (mkRat 1 2 : Rat) ≠ mkRat 3 4 ∧
    ((analyzeFile ⟨true, 100, 2⟩ (fun fm => ⟨false, fm.content⟩)
        ⟨"p", mkRat 3 4, 100, 2⟩
        (analyzeFile ⟨true, 100, 2⟩ (fun fm => ⟨false, fm.content⟩)
          ⟨"p", mkRat 1 2, 100, 1⟩ initAnalyzerState).2).1 = .okRes 1 100) := by
  decide

/-- C8, amended.  With result caching enabled and a configured maximum of
at least one entry: re-analyzing an unchanged file returns the identical
result with no further tool invocation (one invocation in total for a
successful probe); analyzing a file whose probe key (truncated mtime or
size) and outer key both differ performs exactly one fresh invocation; and
one analysis step from any state within the bound keeps the analysis cache
within `max_cache_entries`, evicting oldest-inserted entries only (the new
cache is a suffix of the old cache with the new entry appended).  A
sub-second mtime change that keeps the truncated mtime and size is served
from the memoized probe layer without a fresh invocation, and a configured
maximum of zero disables eviction entirely. -/
theorem analysis_cache_amended (cfg : AnalyzerCfg) (env : FileMeta → ProbeOut)
    (f g : FileMeta) (s : AnalyzerState)
    (h1 : cfg.cacheResults = true) (h2 : 1 ≤ cfg.maxCacheEntries)
    (h3 : (env f).hasError = false) (h4 : (env g).hasError = false)
    (h5 : probeKey g ≠ probeKey f) (h6 : outerKey g ≠ outerKey f)
    (h7 : s.analysisCache.length ≤ cfg.maxCacheEntries)
    (h8 : lookupAssoc s.analysisCache (outerKey f) = none)
    (h9 : lookupAssoc s.lruProbe (probeKey f) = none) :
    ((analyzeFile cfg env f (analyzeFile cfg env f initAnalyzerState).2).1
        = (analyzeFile cfg env f initAnalyzerState).1) ∧
    ((analyzeFile cfg env f (analyzeFile cfg env f initAnalyzerState).2).2.invocations
        = (analyzeFile cfg env f initAnalyzerState).2.invocations) ∧
    ((analyzeFile cfg env f initAnalyzerState).2.invocations = 1) ∧
    ((analyzeFile cfg env g
        (analyzeFile cfg env f (analyzeFile cfg env f initAnalyzerState).2).2).2.invocations
        = (analyzeFile cfg env f
            (analyzeFile cfg env f initAnalyzerState).2).2.invocations + 1) ∧
    ((analyzeFile cfg env f s).2.analysisCache.length ≤ cfg.maxCacheEntries) ∧
    ((analyzeFile cfg env f s).2.analysisCache
        <:+ s.analysisCache ++ [(outerKey f, .okRes (env f).payload f.size)]) := by
  have hfirst := analyzeFile_first cfg env f h1 h2 h3
  have hsecond :
      analyzeFile cfg env f (analyzeFile cfg env f initAnalyzerState).2
        = ((analyzeFile cfg env f initAnalyzerState).1,
            (analyzeFile cfg env f initAnalyzerState).2) := by
    rw [hfirst]
    simp [analyzeFile, lookupAssoc, h1]
  refine ⟨?_, ?_, ?_, ?_, analyzeFile_cache_bound cfg env f s h2 h7,
    analyzeFile_cache_suffix cfg env f s h1 h3 h8 h9⟩
  · rw [hsecond]
  · rw [hsecond]
  · rw [hfirst]
  · rw [hsecond, hfirst]
    have hne6 : (outerKey f = outerKey g) = False := by
      simp [Ne.symm h6]
    have hne5 : (probeKey f = probeKey g) = False := by
      simp [Ne.symm h5]
    simp [analyzeFile, lookupAssoc, probeViaLru, runWithRetries, h1, h4, hne5, hne6]

/-- Witness for the amended C8 theorem at concrete files and the empty
initial state. -/
theorem analysis_cache_amended_witness :
    (true : Bool) = true ∧ (1 : Nat) ≤ 100 ∧
    ((fun fm : FileMeta => (⟨false, fm.content⟩ : ProbeOut)) ⟨"p", 0, 10, 5⟩).hasError = false ∧
    ((fun fm : FileMeta => (⟨false, fm.content⟩ : ProbeOut)) ⟨"q", 0, 10, 6⟩).hasError = false ∧
    probeKey ⟨"q", 0, 10, 6⟩ ≠ probeKey ⟨"p", 0, 10, 5⟩ ∧
    outerKey ⟨"q", 0, 10, 6⟩ ≠ outerKey ⟨"p", 0, 10, 5⟩ ∧
    (initAnalyzerState.analysisCache.length ≤ 100) ∧
    lookupAssoc initAnalyzerState.analysisCache (outerKey ⟨"p", 0, 10, 5⟩) = none ∧
    lookupAssoc initAnalyzerState.lruProbe (probeKey ⟨"p", 0, 10, 5⟩) = none ∧
    (((analyzeFile ⟨true, 100, 2⟩ (fun fm => ⟨false, fm.content⟩) ⟨"p", 0, 10, 5⟩
        (analyzeFile ⟨true, 100, 2⟩ (fun fm => ⟨false, fm.content⟩) ⟨"p", 0, 10, 5⟩
          initAnalyzerState).2).1
        = (analyzeFile ⟨true, 100, 2⟩ (fun fm => ⟨false, fm.content⟩) ⟨"p", 0, 10, 5⟩
            initAnalyzerState).1) ∧
    ((analyzeFile ⟨true, 100, 2⟩ (fun fm => ⟨false, fm.content⟩) ⟨"p", 0, 10, 5⟩
        (analyzeFile ⟨true, 100, 2⟩ (fun fm => ⟨false, fm.content⟩) ⟨"p", 0, 10, 5⟩
          initAnalyzerState).2).2.invocations
        = (analyzeFile ⟨true, 100, 2⟩ (fun fm => ⟨false, fm.content⟩) ⟨"p", 0, 10, 5⟩
            initAnalyzerState).2.invocations) ∧
    ((analyzeFile ⟨true, 100, 2⟩ (fun fm => ⟨false, fm.content⟩) ⟨"p", 0, 10, 5⟩
        initAnalyzerState).2.invocations = 1) ∧
    ((analyzeFile ⟨true, 100, 2⟩ (fun fm => ⟨false, fm.content⟩) ⟨"q", 0, 10, 6⟩
        (analyzeFile ⟨true, 100, 2⟩ (fun fm => ⟨false, fm.content⟩) ⟨"p", 0, 10, 5⟩
          (analyzeFile ⟨true, 100, 2⟩ (fun fm => ⟨false, fm.content⟩) ⟨"p", 0, 10, 5⟩
            initAnalyzerState).2).2).2.invocations
        = (analyzeFile ⟨true, 100, 2⟩ (fun fm => ⟨false, fm.content⟩) ⟨"p", 0, 10, 5⟩
            (analyzeFile ⟨true, 100, 2⟩ (fun fm => ⟨false, fm.content⟩) ⟨"p", 0, 10, 5⟩
              initAnalyzerState).2).2.invocations + 1) ∧
    ((analyzeFile ⟨true, 100, 2⟩ (fun fm => ⟨false, fm.content⟩) ⟨"p", 0, 10, 5⟩
        initAnalyzerState).2.analysisCache.length ≤ 100) ∧
    ((analyzeFile ⟨true, 100, 2⟩ (fun fm => ⟨false, fm.content⟩) ⟨"p", 0, 10, 5⟩
        initAnalyzerState).2.analysisCache
        <:+ initAnalyzerState.analysisCache ++
          [(outerKey ⟨"p", 0, 10, 5⟩,
            .okRes ((fun fm : FileMeta => (⟨false, fm.content⟩ : ProbeOut))
              ⟨"p", 0, 10, 5⟩).payload (⟨"p", 0, 10, 5⟩ : FileMeta).size)])) :=
  ⟨by decide, by decide, by decide, by decide, by decide, by decide, by decide,
    by decide, by decide,
    analysis_cache_amended ⟨true, 100, 2⟩ (fun fm => ⟨false, fm.content⟩)
      ⟨"p", 0, 10, 5⟩ ⟨"q", 0, 10, 6⟩ initAnalyzerState
      (by decide) (by decide) (by decide) (by decide) (by decide) (by decide)
      (by decide) (by decide) (by decide)⟩

/-- C3, counterexample.  When FFmpeg succeeds but the move of the verified
temporary output into place raises, `_execute_ffmpeg_processing` returns
the replace-failure error with the original already unlinked; the context
cleanup then removes the temporary file as well, so the error return leaves
the original destroyed. -/
theorem failed_replace_loses_original :
    (processFileFS ⟨false, 10, 50⟩
        ⟨true, .exitOk (some (9, 100)), false, true⟩ ⟨some 7, none⟩).1
      = .failure .replaceFailed ∧
    (processFileFS ⟨false, 10, 50⟩
        ⟨true, .exitOk (some (9, 100)), false, true⟩ ⟨some 7, none⟩).2
      = ⟨none, none⟩ := by
  decide

/-- C3, amended.  Whenever `_execute_ffmpeg_processing` returns an error
result, the temporary output file is removed before `process_file` returns;
for every error other than a failed replace — FFmpeg non-zero exit,
timeout, missing output, and the output-size violations — the original
input file still exists with its pre-call contents, and this also holds for
a replace failure raised while deleting the original; but a replace failure
raised by the move, after the original was already unlinked, returns the
error with the original no longer present. -/
theorem transcode_error_preserves_original_amended (cfg : ProcCfg)
    (env : ExecEnv) (fs : ProcFS) (c0 : Nat) (e : ExecErr)
    (horig : fs.original = some c0) (htemp : fs.temp = none)
    (hres : (processFileFS cfg env fs).1 = .failure e) :
    (processFileFS cfg env fs).2.temp = none ∧
    (e ≠ .replaceFailed → (processFileFS cfg env fs).2.original = some c0) ∧
    (e = .replaceFailed → env.unlinkRaises = true →
      (processFileFS cfg env fs).2.original = some c0) := by
  obtain ⟨found, run, ur, mr⟩ := env
  simp only [processFileFS, executeFFmpegProcessing, cleanupTempFiles] at hres ⊢
  cases found
  · simp_all
  · cases run with
    | timedOut t => simp_all
    | nonzeroExit t => simp_all
    | exitOk tempOut =>
        cases tempOut with
        | none => simp_all
        | some co =>
            simp only [horig] at hres ⊢
            split_ifs at hres ⊢ <;> simp_all

/-- Witness for the amended C3 theorem: a non-zero FFmpeg exit leaves the
original intact and the temporary file removed. -/
theorem transcode_error_preserves_original_amended_witness :
    (⟨some 7, none⟩ : ProcFS).original = some 7 ∧
    (⟨some 7, none⟩ : ProcFS).temp = none ∧
    (processFileFS ⟨true, 10, 50⟩ ⟨true, .nonzeroExit none, false, false⟩
        ⟨some 7, none⟩).1 = .failure .ffmpegFailed ∧
    ((processFileFS ⟨true, 10, 50⟩ ⟨true, .nonzeroExit none, false, false⟩
        ⟨some 7, none⟩).2.temp = none ∧
    (ExecErr.ffmpegFailed ≠ .replaceFailed →
      (processFileFS ⟨true, 10, 50⟩ ⟨true, .nonzeroExit none, false, false⟩
          ⟨some 7, none⟩).2.original = some 7) ∧
    (ExecErr.ffmpegFailed = .replaceFailed →
      (⟨true, .nonzeroExit none, false, false⟩ : ExecEnv).unlinkRaises = true →
      (processFileFS ⟨true, 10, 50⟩ ⟨true, .nonzeroExit none, false, false⟩
          ⟨some 7, none⟩).2.original = some 7)) :=
  ⟨by decide, by decide, by decide,
    transcode_error_preserves_original_amended ⟨true, 10, 50⟩
      ⟨true, .nonzeroExit none, false, false⟩ ⟨some 7, none⟩ 7 .ffmpegFailed
      (by decide) (by decide) (by decide)⟩

end VideoCleaner
